import Mathlib

/-!
Shallow embedding of `Vacareanu_2015.py` (class `VacareanuEtAl2015`), the
Vrancea intermediate-depth fore-arc/back-arc GMPE.

Modelling conventions:
* Floating-point values are idealised as real numbers (`ℝ`); `np.log` is
  `Real.log`.
* A numpy value is either a 0-d scalar or a 1-d array (`NPVal`): the code
  mixes scalars (magnitude, depth and site terms, the standard deviations)
  with per-site arrays, and numpy broadcasting between them is semantically
  relevant, so the distinction is kept explicit.
* Binary ufuncs on two 1-d arrays broadcast when the lengths agree or one of
  the lengths is 1, and raise `ValueError` otherwise; this is `bop` with the
  error `Err.broadcastMismatch`.
* Python `bool(array)` (used by `if vs_star <= 360.0:`) is defined only for
  single-element arrays and raises `ValueError` ("the truth value of an array
  with more than one element is ambiguous") otherwise; this is
  `Err.ambiguousTruth`.
* The `assert` in `_get_stddevs` raising `AssertionError` is
  `Err.assertFailed`.
* Exceptions are modelled with `Except Err`, sequenced in the evaluation
  order of the Python expressions.
-/

namespace Vacareanu2015

/-- Errors the Python code can raise, as observed at the call boundary. -/
inductive Err where
  /-- numpy `ValueError`: operands could not be broadcast together. -/
  | broadcastMismatch
  /-- numpy `ValueError`: truth value of a multi-element array is ambiguous. -/
  | ambiguousTruth
  /-- Python `AssertionError` from the `assert` in `_get_stddevs`. -/
  | assertFailed
deriving DecidableEq, Repr

/-- A numpy value: a 0-d scalar or a 1-d array. -/
inductive NPVal where
  | scalar (x : ℝ)
  | arr (xs : List ℝ)

/-- Elementwise binary ufunc with numpy 1-d broadcasting: scalars broadcast
against anything; two arrays broadcast when the lengths agree or one length
is 1, and otherwise raise `ValueError`. -/
def bop (f : ℝ → ℝ → ℝ) : NPVal → NPVal → Except Err NPVal
  | .scalar a, .scalar b => .ok (.scalar (f a b))
  | .scalar a, .arr bs => .ok (.arr (bs.map (fun b => f a b)))
  | .arr as, .scalar b => .ok (.arr (as.map (fun a => f a b)))
  | .arr [a], .arr bs => .ok (.arr (bs.map (fun b => f a b)))
  | .arr as, .arr [b] => .ok (.arr (as.map (fun a => f a b)))
  | .arr as, .arr bs =>
      if as.length = bs.length then .ok (.arr (List.zipWith f as bs))
      else .error .broadcastMismatch

/-- numpy `+` on two values. -/
def npAdd : NPVal → NPVal → Except Err NPVal := bop (fun a b => a + b)

/-- numpy `*` on two values. -/
def npMul : NPVal → NPVal → Except Err NPVal := bop (fun a b => a * b)

/-- Multiplication of a value by a Python scalar on the left (never fails). -/
def smul (x : ℝ) : NPVal → NPVal
  | .scalar b => .scalar (x * b)
  | .arr bs => .arr (bs.map (fun b => x * b))

/-- Subtraction of a value from a Python scalar (never fails); models
`1 - sites.backarc`. -/
def sminus (x : ℝ) : NPVal → NPVal
  | .scalar b => .scalar (x - b)
  | .arr bs => .arr (bs.map (fun b => x - b))

/-- numpy `np.log`, elementwise. -/
noncomputable def npLog : NPVal → NPVal
  | .scalar x => .scalar (Real.log x)
  | .arr xs => .arr (xs.map Real.log)

/-- One row of the `COEFFS` table: the ten regression coefficients and the
three dispersion values (Table 4 of the paper). -/
structure Coeffs where
  c1 : ℝ
  c2 : ℝ
  c3 : ℝ
  c4 : ℝ
  c5 : ℝ
  c6 : ℝ
  c7 : ℝ
  c8 : ℝ
  c9 : ℝ
  c10 : ℝ
  sigma_t : ℝ
  tau : ℝ
  sigma : ℝ

/-- The `COEFFS` table of `VacareanuEtAl2015`, keyed by period (0.0 = PGA).
Transcribed row by row from the Python source. -/
def COEFFS : List (ℚ × Coeffs) :=
  [(0.0, ⟨9.6231, 1.4232, -0.1555, -1.1316, -0.0114, -0.0024, -0.0007, -0.0835, 0.1589, 0.0488, 0.698, 0.406, 0.568⟩),
   (0.1, ⟨9.6981, 1.3679, -0.1423, -0.9889, -0.0135, -0.0026, -0.0017, -0.1965, 0.1670, 0.0020, 0.806, 0.468, 0.656⟩),
   (0.2, ⟨10.0090, 1.3620, -0.1138, -1.0371, -0.0127, -0.0032, -0.0004, -0.1547, 0.2861, 0.0860, 0.792, 0.469, 0.638⟩),
   (0.3, ⟨10.7033, 1.4580, -0.1187, -1.2340, -0.0106, -0.0026, 0.0000, -0.1014, 0.2659, 0.0991, 0.783, 0.480, 0.619⟩),
   (0.4, ⟨10.7701, 1.5748, -0.1439, -1.3207, -0.0093, -0.0022, 0.0005, -0.1076, 0.3062, 0.1183, 0.810, 0.519, 0.622⟩),
   (0.5, ⟨9.2327, 1.6739, -0.1664, -1.0022, -0.0100, -0.0041, 0.0007, -0.0259, 0.2576, 0.0722, 0.767, 0.461, 0.613⟩),
   (0.6, ⟨8.6445, 1.7672, -0.1925, -0.8938, -0.0099, -0.0045, -0.0004, -0.1038, 0.2181, 0.0179, 0.740, 0.429, 0.603⟩),
   (0.7, ⟨8.7134, 1.8500, -0.1990, -0.9780, -0.0088, -0.0039, 0.0002, -0.1867, 0.1564, 0.0006, 0.735, 0.426, 0.599⟩),
   (0.8, ⟨9.0835, 1.9066, -0.2022, -1.1044, -0.0078, -0.0031, 0.0005, -0.2901, 0.0546, -0.1019, 0.726, 0.417, 0.594⟩),
   (0.9, ⟨9.1274, 1.9662, -0.2465, -1.1437, -0.0074, -0.0031, 0.0001, -0.2804, 0.0884, -0.0790, 0.719, 0.403, 0.596⟩),
   (1.0, ⟨8.9987, 1.9964, -0.2658, -1.1226, -0.0071, -0.0031, -0.0009, -0.2992, 0.0739, -0.0955, 0.715, 0.400, 0.592⟩),
   (1.2, ⟨8.0465, 2.0432, -0.2241, -0.9654, -0.0072, -0.0041, -0.0013, -0.2681, 0.1476, -0.0412, 0.713, 0.392, 0.595⟩),
   (1.4, ⟨7.0585, 2.1148, -0.2167, -0.8011, -0.0078, -0.0049, -0.0013, -0.2566, 0.2009, -0.0068, 0.714, 0.392, 0.597⟩),
   (1.6, ⟨6.8329, 2.1668, -0.2418, -0.8036, -0.0075, -0.0047, -0.0018, -0.2268, 0.2272, 0.0211, 0.732, 0.418, 0.601⟩),
   (1.8, ⟨6.4292, 2.1988, -0.2468, -0.7625, -0.0073, -0.0047, -0.0020, -0.2464, 0.2200, 0.0082, 0.745, 0.427, 0.611⟩),
   (2.0, ⟨6.3876, 2.2151, -0.2289, -0.8004, -0.0066, -0.0043, -0.0024, -0.2767, 0.2134, -0.0091, 0.744, 0.425, 0.611⟩),
   (2.5, ⟨4.4248, 2.2541, -0.2144, -0.4280, -0.0079, -0.0061, -0.0031, -0.2924, 0.2108, -0.0177, 0.750, 0.420, 0.622⟩),
   (3.0, ⟨4.5395, 2.2812, -0.2256, -0.5340, -0.0072, -0.0054, -0.0034, -0.3066, 0.1840, -0.0387, 0.765, 0.436, 0.629⟩),
   (3.5, ⟨4.7407, 2.2803, -0.2456, -0.6250, -0.0065, -0.0045, -0.0041, -0.3728, 0.0918, -0.1192, 0.778, 0.436, 0.645⟩),
   (4.0, ⟨4.4928, 2.2796, -0.2580, -0.6215, -0.0062, -0.0041, -0.0048, -0.3763, 0.0512, -0.1428, 0.792, 0.443, 0.657⟩)]

/-- The coefficient row for PGA (period 0.0), first row of `COEFFS`. -/
def COEFFS_PGA : Coeffs :=
  ⟨9.6231, 1.4232, -0.1555, -1.1316, -0.0114, -0.0024, -0.0007, -0.0835, 0.1589, 0.0488, 0.698, 0.406, 0.568⟩

/-- Requested standard-deviation kind; `other` covers any value outside the
three members of `const.StdDev` the class declares support for. -/
inductive StdDevType where
  | total
  | inter_event
  | intra_event
  | other (s : String)
deriving DecidableEq, Repr

/-- Membership in `DEFINED_FOR_STANDARD_DEVIATION_TYPES`. -/
def StdDevType.supported : StdDevType → Bool
  | .other _ => false
  | _ => true

/-- Embeds `_compute_magnitude_term`: `c1 + c2*(mag-6) + c3*(mag-6)*(mag-6)`. -/
def compute_magnitude_term (C : Coeffs) (mag : ℝ) : ℝ :=
  C.c1 + C.c2 * (mag - 6) + C.c3 * (mag - 6) * (mag - 6)

/-- Embeds `_compute_distance_arc_term`:
`c4*log(rhypo) + c5*backarc*rhypo + c6*(1-backarc)*rhypo`, with the boolean
`backarc` array coerced to 0/1 and the three products and two sums evaluated
in the left-to-right order of the Python expression. -/
noncomputable def compute_distance_arc_term (C : Coeffs) (backarc : List Bool)
    (rhypo : List ℝ) : Except Err NPVal :=
  let ba : NPVal := .arr (backarc.map (fun b => if b then (1 : ℝ) else 0))
  let rh : NPVal := .arr rhypo
  (npMul (smul C.c5 ba) rh).bind (fun t2 =>
    (npAdd (smul C.c4 (npLog rh)) t2).bind (fun s1 =>
      (npMul (smul C.c6 (sminus 1 ba)) rh).bind (fun t3 =>
        npAdd s1 t3)))

/-- Embeds `_compute_focal_depth_term`: `c7 * hypo_depth`. -/
def compute_focal_depth_term (C : Coeffs) (hypo_depth : ℝ) : ℝ :=
  C.c7 * hypo_depth

/-- Embeds `_compute_site_response_term`: `vs_star` is a copy of `sites.vs30`
clipped into [180, 800] elementwise; then `if vs_star <= 360.0:` converts the
comparison array to a single Python bool, which is defined only for a
one-element array, and selects site class C or B; `site_s` stays 0. -/
noncomputable def compute_site_response_term (C : Coeffs) (vs30 : List ℝ) :
    Except Err ℝ :=
  let vs_star := (vs30.map (fun v => if v > 800 then (800 : ℝ) else v)).map
    (fun v => if v < 180 then (180 : ℝ) else v)
  match vs_star with
  | [v] =>
      let site_c : ℝ := if v ≤ 360 then 1 else 0
      let site_b : ℝ := if v ≤ 360 then 0 else 1
      let site_s : ℝ := 0
      .ok (C.c8 * site_b + C.c9 * site_c + C.c10 * site_s)
  | _ => .error .ambiguousTruth

/-- Embeds `_get_stddevs`: walk `stddev_types` in order; the `assert` raises
for a kind outside the declared set, otherwise the matching scalar from the
coefficient row is appended (`TOTAL` to `sigma_t`, `INTER_EVENT` to `tau`,
`INTRA_EVENT` to `sigma`). -/
def get_stddevs (C : Coeffs) : List StdDevType → Except Err (List NPVal)
  | [] => .ok []
  | .other _ :: _ => .error .assertFailed
  | .total :: ts =>
      (get_stddevs C ts).bind (fun rest => .ok (.scalar C.sigma_t :: rest))
  | .inter_event :: ts =>
      (get_stddevs C ts).bind (fun rest => .ok (.scalar C.tau :: rest))
  | .intra_event :: ts =>
      (get_stddevs C ts).bind (fun rest => .ok (.scalar C.sigma :: rest))

/-- Embeds `get_mean_and_stddevs`: the four mean terms are evaluated and
summed in the left-to-right Python evaluation order (magnitude, distance/arc, focal depth,
site response), and only then are the standard deviations selected. -/
noncomputable def get_mean_and_stddevs (C : Coeffs) (mag hypo_depth : ℝ)
    (vs30 : List ℝ) (backarc : List Bool) (rhypo : List ℝ)
    (stddev_types : List StdDevType) : Except Err (NPVal × List NPVal) :=
  let m1 : NPVal := .scalar (compute_magnitude_term C mag)
  let m3 : NPVal := .scalar (compute_focal_depth_term C hypo_depth)
  (compute_distance_arc_term C backarc rhypo).bind (fun m2 =>
    (npAdd m1 m2).bind (fun s1 =>
      (npAdd s1 m3).bind (fun s2 =>
        (compute_site_response_term C vs30).bind (fun m4 =>
          (npAdd s2 (.scalar m4)).bind (fun mean =>
            (get_stddevs C stddev_types).bind (fun stddevs =>
              .ok (mean, stddevs)))))))

/-- Selector used to state which dispersion column each supported
standard-deviation kind reads (TOTAL to `sigma_t`, INTER_EVENT to `tau`,
INTRA_EVENT to `sigma`); the value on unsupported kinds is irrelevant. -/
def stddev_of_kind (C : Coeffs) : StdDevType → ℝ
  | .total => C.sigma_t
  | .inter_event => C.tau
  | .intra_event => C.sigma
  | .other _ => 0

/-- The per-call input arrays as a mutable-object state, for stating frame
properties of the call. -/
structure Inputs where
  vs30 : List ℝ
  backarc : List Bool
  rhypo : List ℝ

/-- Stateful embedding of `_compute_site_response_term`: the result is
paired with the input arrays as they stand after the call. `vs_star` is
built from `sites.vs30.copy()`, so the two in-place clip assignments write
into the fresh copy, and `sites.vs30` itself is never assigned. -/
noncomputable def compute_site_response_term_st (C : Coeffs) (inputs : Inputs) :
    Except Err ℝ × Inputs :=
  match (inputs.vs30.map (fun v => if v > 800 then (800 : ℝ) else v)).map
      (fun v => if v < 180 then (180 : ℝ) else v) with
  | [v] =>
      let site_c : ℝ := if v ≤ 360 then 1 else 0
      let site_b : ℝ := if v ≤ 360 then 0 else 1
      let site_s : ℝ := 0
      (.ok (C.c8 * site_b + C.c9 * site_c + C.c10 * site_s), inputs)
  | _ => (.error .ambiguousTruth, inputs)

/-- Stateful embedding of `get_mean_and_stddevs`: same computation as
`get_mean_and_stddevs`, but the site term is taken from the stateful
`compute_site_response_term_st` and the final state of the input arrays is
returned alongside the result. The site-response call is the only statement
in the whole method that touches an input array, so the post-call state is
its post-state. -/
noncomputable def get_mean_and_stddevs_st (C : Coeffs) (mag hypo_depth : ℝ)
    (inputs : Inputs) (stddev_types : List StdDevType) :
    Except Err (NPVal × List NPVal) × Inputs :=
  let m1 : NPVal := .scalar (compute_magnitude_term C mag)
  let m3 : NPVal := .scalar (compute_focal_depth_term C hypo_depth)
  Prod.mk
    ((compute_distance_arc_term C inputs.backarc inputs.rhypo).bind (fun m2 =>
      (npAdd m1 m2).bind (fun s1 =>
        (npAdd s1 m3).bind (fun s2 =>
          ((compute_site_response_term_st C inputs).1).bind (fun m4 =>
            (npAdd s2 (.scalar m4)).bind (fun mean =>
              (get_stddevs C stddev_types).bind (fun stddevs =>
                .ok (mean, stddevs))))))))
    ((compute_site_response_term_st C inputs).2)

/-- Sequencing after a successful step. -/
@[simp] theorem ebind_ok {α β : Type} (a : α) (f : α → Except Err β) :
    (Except.ok a : Except Err α).bind f = f a := rfl

/-- Sequencing after a raised exception propagates the exception. -/
@[simp] theorem ebind_error {α β : Type} (e : Err) (f : α → Except Err β) :
    (Except.error e : Except Err α).bind f = .error e := rfl

/-- Successful sequencing decomposes into a successful first step and a
successful continuation. -/
theorem ebind_ok_iff {α β : Type} (x : Except Err α) (f : α → Except Err β)
    (b : β) : x.bind f = .ok b ↔ ∃ a, x = .ok a ∧ f a = .ok b := by
  cases x with
  | error e => simp [ebind_error]
  | ok a => simp [ebind_ok]

/-- The first row of the table is the PGA row. -/
theorem COEFFS_first : COEFFS.head? = some (0.0, COEFFS_PGA) := rfl

/-- Broadcasting a scalar against a scalar. -/
theorem bop_scalar_scalar (f : ℝ → ℝ → ℝ) (a b : ℝ) :
    bop f (.scalar a) (.scalar b) = .ok (.scalar (f a b)) := rfl

/-- Broadcasting a scalar against an array maps over the array. -/
theorem bop_scalar_arr (f : ℝ → ℝ → ℝ) (a : ℝ) (bs : List ℝ) :
    bop f (.scalar a) (.arr bs) = .ok (.arr (bs.map (fun b => f a b))) := rfl

/-- Broadcasting an array against a scalar maps over the array. -/
theorem bop_arr_scalar (f : ℝ → ℝ → ℝ) (as : List ℝ) (b : ℝ) :
    bop f (.arr as) (.scalar b) = .ok (.arr (as.map (fun a => f a b))) := by
  match as with
  | [] => rfl
  | [a] => rfl
  | a :: a2 :: rest => rfl

/-- Broadcasting two arrays of equal length is `zipWith`. -/
theorem bop_arr_arr (f : ℝ → ℝ → ℝ) :
    ∀ (as bs : List ℝ), as.length = bs.length →
      bop f (.arr as) (.arr bs) = .ok (.arr (List.zipWith f as bs))
  | [], [], _ => by simp [bop]
  | [a], [b], _ => rfl
  | a :: a2 :: as, b :: b2 :: bs, h => by
      simp only [bop]
      rw [if_pos h]
  | [], b :: bs, h => by simp at h
  | [a], b :: b2 :: bs, h => by simp at h
  | a :: a2 :: as, [], h => by simp at h
  | a :: a2 :: as, [b], h => by simp at h
  | [a], [], h => by simp at h

/-- Broadcasting with an array on the left only ever produces an array. -/
theorem bop_ok_arr (f : ℝ → ℝ → ℝ) (as : List ℝ) (v2 v : NPVal)
    (h : bop f (.arr as) v2 = .ok v) : ∃ xs, v = .arr xs := by
  cases v2 with
  | scalar b =>
    simp only [bop, Except.ok.injEq] at h
    exact ⟨_, h.symm⟩
  | arr bs =>
    rcases as with _ | ⟨a, _ | ⟨a2, as⟩⟩ <;> rcases bs with _ | ⟨b, _ | ⟨b2, bs⟩⟩ <;>
      simp only [bop, Except.ok.injEq] at h
    all_goals first
      | exact ⟨_, h.symm⟩
      | (split at h
         · simp only [Except.ok.injEq] at h
           exact ⟨_, h.symm⟩
         · cases h)

/-- Elementwise shape of the distance/arc computation, as a pure list fact. -/
theorem dist_zip (C : Coeffs) :
    ∀ (backarc : List Bool) (rhypo : List ℝ), backarc.length = rhypo.length →
      List.zipWith (fun a b => a + b)
        (List.zipWith (fun a b => a + b)
          ((rhypo.map Real.log).map (fun b => C.c4 * b))
          (List.zipWith (fun a b => a * b)
            ((backarc.map (fun b => if b then (1 : ℝ) else 0)).map
              (fun b => C.c5 * b)) rhypo))
        (List.zipWith (fun a b => a * b)
          (((backarc.map (fun b => if b then (1 : ℝ) else 0)).map
            (fun b => (1 : ℝ) - b)).map (fun b => C.c6 * b)) rhypo) =
      (backarc.zip rhypo).map (fun p =>
        C.c4 * Real.log p.2 + C.c5 * (if p.1 then (1 : ℝ) else 0) * p.2 +
          C.c6 * (1 - if p.1 then (1 : ℝ) else 0) * p.2)
  | [], [], _ => rfl
  | b :: bs, r :: rs, h => by
      simp only [List.map_cons, List.zipWith_cons_cons, List.zip_cons_cons,
        List.map_cons]
      refine congrArg₂ _ rfl (dist_zip C bs rs ?_)
      simpa using h
  | [], r :: rs, h => by simp at h
  | b :: bs, [], h => by simp at h

/-- Helper: the distance/arc term on equal-length vectors is the elementwise
formula over the zipped per-site inputs. -/
theorem distance_arc_term_zip (C : Coeffs) (backarc : List Bool)
    (rhypo : List ℝ) (h : backarc.length = rhypo.length) :
    compute_distance_arc_term C backarc rhypo =
      .ok (.arr ((backarc.zip rhypo).map (fun p =>
        C.c4 * Real.log p.2 + C.c5 * (if p.1 then (1 : ℝ) else 0) * p.2 +
          C.c6 * (1 - if p.1 then (1 : ℝ) else 0) * p.2))) := by
  have h1 : ((backarc.map (fun b => if b then (1 : ℝ) else 0)).map
      (fun b => C.c5 * b)).length = rhypo.length := by simpa using h
  have h3 : (((backarc.map (fun b => if b then (1 : ℝ) else 0)).map
      (fun b => (1 : ℝ) - b)).map (fun b => C.c6 * b)).length = rhypo.length := by
    simpa using h
  unfold compute_distance_arc_term
  simp only [npLog, smul, sminus, npMul, npAdd]
  rw [bop_arr_arr _ _ _ h1]
  simp only [ebind_ok]
  have h2 : ((rhypo.map Real.log).map (fun b => C.c4 * b)).length =
      (List.zipWith (fun a b => a * b)
        ((backarc.map (fun b => if b then (1 : ℝ) else 0)).map
          (fun b => C.c5 * b)) rhypo).length := by
    simp [h]
  rw [bop_arr_arr _ _ _ h2]
  simp only [ebind_ok]
  rw [bop_arr_arr _ _ _ h3]
  simp only [ebind_ok]
  have h4 : (List.zipWith (fun a b => a + b)
      ((rhypo.map Real.log).map (fun b => C.c4 * b))
      (List.zipWith (fun a b => a * b)
        ((backarc.map (fun b => if b then (1 : ℝ) else 0)).map
          (fun b => C.c5 * b)) rhypo)).length =
      (List.zipWith (fun a b => a * b)
        (((backarc.map (fun b => if b then (1 : ℝ) else 0)).map
          (fun b => (1 : ℝ) - b)).map (fun b => C.c6 * b)) rhypo).length := by
    simp [h]
  rw [bop_arr_arr _ _ _ h4]
  rw [dist_zip C backarc rhypo h]

/-- C3: for every input whose `backarc` and `rhypo` vectors have equal
length, the distance/arc term equals
`c4*ln(rhypo) + c5*backarc*rhypo + c6*(1-backarc)*rhypo` evaluated
elementwise over the per-site vectors, so the linear slope at each back-arc
site is `c5` and at each fore-arc/unknown site is `c6`, selected per
site. -/
theorem C3_distance_arc_term_elementwise (C : Coeffs) (backarc : List Bool)
    (rhypo : List ℝ) (h : backarc.length = rhypo.length) :
    compute_distance_arc_term C backarc rhypo =
      .ok (.arr ((backarc.zip rhypo).map (fun p =>
        C.c4 * Real.log p.2 + C.c5 * (if p.1 then (1 : ℝ) else 0) * p.2 +
          C.c6 * (1 - if p.1 then (1 : ℝ) else 0) * p.2))) :=
  distance_arc_term_zip C backarc rhypo h

/-- Witness for C3 at a concrete two-site input, one back-arc and one
fore-arc site. -/
theorem C3_witness :
    ([true, false] : List Bool).length = ([50, 100] : List ℝ).length ∧
      compute_distance_arc_term COEFFS_PGA [true, false] [50, 100] =
        .ok (.arr ((([true, false] : List Bool).zip ([50, 100] : List ℝ)).map
          (fun p => COEFFS_PGA.c4 * Real.log p.2 +
            COEFFS_PGA.c5 * (if p.1 then (1 : ℝ) else 0) * p.2 +
            COEFFS_PGA.c6 * (1 - if p.1 then (1 : ℝ) else 0) * p.2))) :=
  ⟨rfl, C3_distance_arc_term_elementwise COEFFS_PGA [true, false] [50, 100] rfl⟩

/-- Helper: the distance/arc term of the C1 scenario (one fore-arc site at
50 km). -/
theorem dist_pga_forearc_50 :
    compute_distance_arc_term COEFFS_PGA [false] [50] =
      .ok (.arr [(-1.1316) * Real.log 50 + (-0.0024) * 50]) := by
  rw [distance_arc_term_zip COEFFS_PGA [false] [50] rfl]
  simp only [List.zip_cons_cons, List.zip_nil_right, List.map_cons,
    List.map_nil, Bool.false_eq_true, if_false]
  norm_num [COEFFS_PGA]

/-- Helper: the site term of the C1 scenario (Vs30 = 400, class B). -/
theorem site_pga_400 :
    compute_site_response_term COEFFS_PGA [400] = .ok (-0.0835) := by
  unfold compute_site_response_term
  norm_num [COEFFS_PGA]

/-- Helper: the full call for the PGA scenario (mag 6, depth 100, one
fore-arc site with Vs30 400 at rhypo 50), for any successfully selected
standard-deviation list. -/
theorem mean_pga_single (types : List StdDevType) (sd : List NPVal)
    (hstd : get_stddevs COEFFS_PGA types = .ok sd) :
    get_mean_and_stddevs COEFFS_PGA 6 100 [400] [false] [50] types =
      .ok (.arr [9.6231 + (-1.1316 * Real.log 50 + (-0.0024) * 50) +
        (-0.07) + (-0.0835)], sd) := by
  unfold get_mean_and_stddevs
  rw [dist_pga_forearc_50]
  simp only [ebind_ok, npAdd, bop, List.map_cons, List.map_nil]
  rw [site_pga_400]
  simp only [ebind_ok]
  rw [hstd]
  simp only [ebind_ok, Except.ok.injEq, Prod.mk.injEq, NPVal.arr.injEq,
    List.cons.injEq, and_true]
  norm_num [compute_magnitude_term, compute_focal_depth_term, COEFFS_PGA]

/-- C1: for PGA, mag 6, depth 100 km, one fore-arc site with Vs30 400 at
rhypo 50 km, the mean is
`9.6231 + (-1.1316*ln 50 + (-0.0024)*50) + (-0.07) + (-0.0835)` and the
requested TOTAL standard deviation is 0.698. -/
theorem C1_concrete_scenario :
    get_mean_and_stddevs COEFFS_PGA 6 100 [400] [false] [50] [.total] =
      .ok (.arr [9.6231 + (-1.1316 * Real.log 50 + (-0.0024) * 50) +
        (-0.07) + (-0.0835)], [.scalar 0.698]) :=
  mean_pga_single [.total] [.scalar 0.698] rfl

/-- Helper: the scalar truth-test in `_compute_site_response_term` raises
`ValueError` whenever the site batch does not have exactly one element. -/
theorem site_response_term_multisite (C : Coeffs) (vs30 : List ℝ)
    (h : vs30.length ≠ 1) :
    compute_site_response_term C vs30 = .error .ambiguousTruth := by
  match vs30, h with
  | [], _ => rfl
  | [v], h => exact absurd rfl h
  | v1 :: v2 :: rest, _ => rfl

/-- Helper: when the distance term broadcasts but the site-response term
raises, the whole call raises the site-response error. -/
theorem mean_err_of_site_err (C : Coeffs) (mag hd : ℝ) (vs30 : List ℝ)
    (backarc : List Bool) (rhypo : List ℝ) (types : List StdDevType)
    (hlen : backarc.length = rhypo.length)
    (hsite : compute_site_response_term C vs30 = .error .ambiguousTruth) :
    get_mean_and_stddevs C mag hd vs30 backarc rhypo types =
      .error .ambiguousTruth := by
  unfold get_mean_and_stddevs
  rw [distance_arc_term_zip C backarc rhypo hlen]
  simp only [ebind_ok, npAdd, bop]
  rw [hsite]
  simp only [ebind_error]

/-- C2: evaluating the code at a two-site batch with mixed Vs30 values: the
call raises `ValueError` from the scalar truth-test `if vs_star <= 360.0:`
instead of classifying each site independently (site 1 class C, site 2
class B). -/
theorem C2_scalar_classification_raises :
    get_mean_and_stddevs COEFFS_PGA 6 100 [300, 500] [false, false] [50, 50]
      [.total] = .error .ambiguousTruth :=
  mean_err_of_site_err COEFFS_PGA 6 100 [300, 500] [false, false] [50, 50]
    [.total] rfl (site_response_term_multisite COEFFS_PGA [300, 500] (by decide))

/-- C8: evaluating the code at the failing two-site input: both the call
with one back-arc site and the call with that site flipped to fore-arc raise
`ValueError` from the site-response term, so no multi-site mean exists whose
per-site change could be compared. -/
theorem C8_multisite_flip_never_returns :
    get_mean_and_stddevs COEFFS_PGA 6 100 [400, 400] [true, false] [50, 50]
        [.total] = .error .ambiguousTruth ∧
      get_mean_and_stddevs COEFFS_PGA 6 100 [400, 400] [false, false] [50, 50]
        [.total] = .error .ambiguousTruth :=
  ⟨mean_err_of_site_err COEFFS_PGA 6 100 [400, 400] [true, false] [50, 50]
      [.total] rfl (site_response_term_multisite COEFFS_PGA [400, 400] (by decide)),
    mean_err_of_site_err COEFFS_PGA 6 100 [400, 400] [false, false] [50, 50]
      [.total] rfl (site_response_term_multisite COEFFS_PGA [400, 400] (by decide))⟩

/-- Helper: a successful distance/arc term is always a per-site array, never
a scalar. -/
theorem distance_arc_term_ok_arr (C : Coeffs) (backarc : List Bool)
    (rhypo : List ℝ) (v : NPVal)
    (h : compute_distance_arc_term C backarc rhypo = .ok v) :
    ∃ xs, v = .arr xs := by
  simp only [compute_distance_arc_term] at h
  rw [ebind_ok_iff] at h; obtain ⟨t2, ht2, h⟩ := h
  rw [ebind_ok_iff] at h; obtain ⟨s1, hs1, h⟩ := h
  rw [ebind_ok_iff] at h; obtain ⟨t3, ht3, h⟩ := h
  simp only [npLog, smul, npAdd] at hs1
  obtain ⟨xs, rfl⟩ := bop_ok_arr _ _ _ _ hs1
  simp only [npAdd] at h
  exact bop_ok_arr _ _ _ _ h

/-- C4: whenever the call returns, the mean is the site-wise sum of exactly
four terms: the scalar magnitude term `c1 + c2*(mag-6) + c3*(mag-6)^2`, the
per-site distance/arc term, the scalar focal-depth term `c7*hypo_depth`, and
the site-response term, the scalars being broadcast to all sites. -/
theorem C4_mean_is_sum_of_four_terms (C : Coeffs) (mag hd : ℝ)
    (vs30 : List ℝ) (backarc : List Bool) (rhypo : List ℝ)
    (types : List StdDevType) (m : NPVal) (s : List NPVal)
    (hok : get_mean_and_stddevs C mag hd vs30 backarc rhypo types =
      .ok (m, s)) :
    ∃ (dv : List ℝ) (sv : ℝ),
      compute_distance_arc_term C backarc rhypo = .ok (.arr dv) ∧
      compute_site_response_term C vs30 = .ok sv ∧
      m = .arr (dv.map (fun d => compute_magnitude_term C mag + d +
        compute_focal_depth_term C hd + sv)) ∧
      compute_magnitude_term C mag =
        C.c1 + C.c2 * (mag - 6) + C.c3 * (mag - 6) ^ 2 ∧
      compute_focal_depth_term C hd = C.c7 * hd := by
  simp only [get_mean_and_stddevs] at hok
  rw [ebind_ok_iff] at hok; obtain ⟨m2, hdist, hok⟩ := hok
  rw [ebind_ok_iff] at hok; obtain ⟨s1, hs1, hok⟩ := hok
  rw [ebind_ok_iff] at hok; obtain ⟨s2, hs2, hok⟩ := hok
  rw [ebind_ok_iff] at hok; obtain ⟨sv, hsite, hok⟩ := hok
  rw [ebind_ok_iff] at hok; obtain ⟨mean, hmean, hok⟩ := hok
  rw [ebind_ok_iff] at hok; obtain ⟨sd, hstd, hok⟩ := hok
  simp only [Except.ok.injEq, Prod.mk.injEq] at hok
  obtain ⟨rfl, rfl⟩ := hok
  obtain ⟨dv, rfl⟩ := distance_arc_term_ok_arr C backarc rhypo m2 hdist
  refine ⟨dv, sv, hdist, hsite, ?_, by unfold compute_magnitude_term; ring,
    rfl⟩
  simp only [npAdd, bop_scalar_arr, Except.ok.injEq] at hs1
  subst hs1
  simp only [npAdd, bop_arr_scalar, Except.ok.injEq] at hs2
  subst hs2
  simp only [npAdd, bop_arr_scalar, Except.ok.injEq] at hmean
  subst hmean
  simp [List.map_map, Function.comp]

/-- Witness for C4 at a concrete single-site input at rhypo 1 km. -/
theorem C4_witness :
    get_mean_and_stddevs COEFFS_PGA 6 100 [400] [false] [1] [] =
        .ok (.arr [(9.4672 : ℝ)], []) ∧
      ∃ (dv : List ℝ) (sv : ℝ),
        compute_distance_arc_term COEFFS_PGA [false] [1] = .ok (.arr dv) ∧
        compute_site_response_term COEFFS_PGA [400] = .ok sv ∧
        NPVal.arr [(9.4672 : ℝ)] =
          .arr (dv.map (fun d => compute_magnitude_term COEFFS_PGA 6 + d +
            compute_focal_depth_term COEFFS_PGA 100 + sv)) ∧
        compute_magnitude_term COEFFS_PGA 6 =
          COEFFS_PGA.c1 + COEFFS_PGA.c2 * ((6 : ℝ) - 6) +
            COEFFS_PGA.c3 * ((6 : ℝ) - 6) ^ 2 ∧
        compute_focal_depth_term COEFFS_PGA 100 = COEFFS_PGA.c7 * 100 := by
  have hok : get_mean_and_stddevs COEFFS_PGA 6 100 [400] [false] [1] [] =
      .ok (.arr [(9.4672 : ℝ)], []) := by
    unfold get_mean_and_stddevs
    rw [distance_arc_term_zip COEFFS_PGA [false] [1] rfl]
    simp only [ebind_ok, npAdd, bop, List.zip_cons_cons, List.zip_nil_right,
      List.map_cons, List.map_nil]
    rw [site_pga_400]
    simp only [ebind_ok]
    have hstd : get_stddevs COEFFS_PGA [] = .ok [] := rfl
    rw [hstd]
    simp only [ebind_ok, Except.ok.injEq, Prod.mk.injEq, NPVal.arr.injEq,
      List.cons.injEq, and_true]
    norm_num [compute_magnitude_term, compute_focal_depth_term, COEFFS_PGA,
      Real.log_one]
  exact ⟨hok,
    C4_mean_is_sum_of_four_terms COEFFS_PGA 6 100 [400] [false] [1] []
      (.arr [(9.4672 : ℝ)]) [] hok⟩

/-- C9: whenever the site-response term returns, its value is
`c8*site_b + c9*site_c` with exactly one of class B or class C selected;
`site_s` stays 0, so the `c10` column contributes nothing for any
coefficient row. -/
theorem C9_site_term_no_c10 (C : Coeffs) (vs30 : List ℝ) (v : ℝ)
    (hok : compute_site_response_term C vs30 = .ok v) :
    ∃ site_b site_c : ℝ,
      ((site_b = 1 ∧ site_c = 0) ∨ (site_b = 0 ∧ site_c = 1)) ∧
        v = C.c8 * site_b + C.c9 * site_c := by
  unfold compute_site_response_term at hok
  generalize ((vs30.map (fun v => if v > 800 then (800 : ℝ) else v)).map
    (fun v => if v < 180 then (180 : ℝ) else v)) = L at hok
  rcases L with _ | ⟨w, _ | ⟨w2, rest⟩⟩
  · simp at hok
  · simp only [Except.ok.injEq] at hok
    by_cases hw : w ≤ 360
    · refine ⟨0, 1, Or.inr ⟨rfl, rfl⟩, ?_⟩
      rw [← hok]
      simp only [if_pos hw]
      ring
    · refine ⟨1, 0, Or.inl ⟨rfl, rfl⟩, ?_⟩
      rw [← hok]
      simp only [if_neg hw]
      ring
  · simp at hok

/-- Witness for C9 at a concrete class-B site. -/
theorem C9_witness :
    compute_site_response_term COEFFS_PGA [500] = .ok (-0.0835) ∧
      ∃ site_b site_c : ℝ,
        ((site_b = 1 ∧ site_c = 0) ∨ (site_b = 0 ∧ site_c = 1)) ∧
          (-0.0835 : ℝ) = COEFFS_PGA.c8 * site_b + COEFFS_PGA.c9 * site_c := by
  have hok : compute_site_response_term COEFFS_PGA [500] = .ok (-0.0835) := by
    unfold compute_site_response_term
    norm_num [COEFFS_PGA]
  exact ⟨hok, C9_site_term_no_c10 COEFFS_PGA [500] (-0.0835) hok⟩

/-- C5 (amended): for every list of requested kinds drawn from the supported
set, `_get_stddevs` returns one entry per requested kind, in the order
requested, TOTAL reading `sigma_t`, INTER_EVENT reading `tau` and
INTRA_EVENT reading `sigma`; each entry is the site-invariant scalar from
the coefficient row, not an array broadcast to the number of sites. -/
theorem C5_stddevs_in_order_scalars (C : Coeffs) (types : List StdDevType)
    (h : ∀ t ∈ types, t.supported = true) :
    get_stddevs C types =
      .ok (types.map (fun t => NPVal.scalar (stddev_of_kind C t))) := by
  induction types with
  | nil => rfl
  | cons t ts ih =>
    have hts : ∀ x ∈ ts, x.supported = true :=
      fun x hx => h x (List.mem_cons_of_mem t hx)
    cases t with
    | other s =>
      have := h (.other s) (List.mem_cons_self _ _)
      simp [StdDevType.supported] at this
    | total => simp [get_stddevs, ih hts, stddev_of_kind]
    | inter_event => simp [get_stddevs, ih hts, stddev_of_kind]
    | intra_event => simp [get_stddevs, ih hts, stddev_of_kind]

/-- Witness for C5 at a concrete list of two requested kinds. -/
theorem C5_witness :
    (∀ t ∈ [StdDevType.total, StdDevType.intra_event], t.supported = true) ∧
      get_stddevs COEFFS_PGA [StdDevType.total, StdDevType.intra_event] =
        .ok [.scalar 0.698, .scalar 0.568] := by
  have h : ∀ t ∈ [StdDevType.total, StdDevType.intra_event],
      t.supported = true := by decide
  refine ⟨h, ?_⟩
  rw [C5_stddevs_in_order_scalars COEFFS_PGA _ h]
  rfl

/-- C5 counterexample: for a one-site input requesting all three kinds, the
returned standard-deviation entries are the scalars from the coefficient
row, and a scalar is not an array of length N = 1 as the claim states. -/
theorem C5_counterexample :
    Except.map Prod.snd (get_mean_and_stddevs COEFFS_PGA 6 100 [400] [false]
        [50] [.total, .inter_event, .intra_event]) =
      .ok [NPVal.scalar 0.698, NPVal.scalar 0.406, NPVal.scalar 0.568] ∧
    NPVal.scalar 0.698 ≠ NPVal.arr [(0.698 : ℝ)] := by
  constructor
  · rw [mean_pga_single [.total, .inter_event, .intra_event]
      [.scalar 0.698, .scalar 0.406, .scalar 0.568] rfl]
    rfl
  · simp

/-- Helper: a requested kind outside the declared set makes `_get_stddevs`
raise the assertion, whatever else the list contains. -/
theorem get_stddevs_bad (C : Coeffs) (types : List StdDevType)
    (h : ∃ t ∈ types, t.supported = false) :
    get_stddevs C types = .error .assertFailed := by
  induction types with
  | nil => simp at h
  | cons t ts ih =>
    rcases h with ⟨x, hx, hxs⟩
    rcases List.mem_cons.mp hx with rfl | hmem
    · cases x with
      | other s => rfl
      | total => simp [StdDevType.supported] at hxs
      | inter_event => simp [StdDevType.supported] at hxs
      | intra_event => simp [StdDevType.supported] at hxs
    · have hrec := ih ⟨x, hmem, hxs⟩
      cases t with
      | other s => rfl
      | total => simp [get_stddevs, hrec]
      | inter_event => simp [get_stddevs, hrec]
      | intra_event => simp [get_stddevs, hrec]

/-- C6 (amended): a call requesting a standard-deviation kind outside
{TOTAL, INTER_EVENT, INTRA_EVENT} never returns a value. It does not fail
before the mean computation: the standard deviations are only selected after
the mean, so a failing mean computation surfaces its own error instead. -/
theorem C6_bad_kind_never_returns (C : Coeffs) (mag hd : ℝ) (vs30 : List ℝ)
    (backarc : List Bool) (rhypo : List ℝ) (types : List StdDevType)
    (hbad : ∃ t ∈ types, t.supported = false) (r : NPVal × List NPVal) :
    get_mean_and_stddevs C mag hd vs30 backarc rhypo types ≠ .ok r := by
  intro hok
  simp only [get_mean_and_stddevs] at hok
  rw [ebind_ok_iff] at hok; obtain ⟨m2, _, hok⟩ := hok
  rw [ebind_ok_iff] at hok; obtain ⟨s1, _, hok⟩ := hok
  rw [ebind_ok_iff] at hok; obtain ⟨s2, _, hok⟩ := hok
  rw [ebind_ok_iff] at hok; obtain ⟨m4, _, hok⟩ := hok
  rw [ebind_ok_iff] at hok; obtain ⟨mean, _, hok⟩ := hok
  rw [ebind_ok_iff] at hok; obtain ⟨sd, hsd, _⟩ := hok
  rw [get_stddevs_bad C types hbad] at hsd
  cases hsd

/-- Witness for C6 at a concrete unsupported kind. -/
theorem C6_witness :
    (∃ t ∈ [StdDevType.other "PEER"], t.supported = false) ∧
      get_mean_and_stddevs COEFFS_PGA 6 100 [400] [false] [50]
        [StdDevType.other "PEER"] ≠ .ok (.arr [0], []) := by
  have hbad : ∃ t ∈ [StdDevType.other "PEER"], t.supported = false :=
    ⟨.other "PEER", List.mem_cons_self _ _, rfl⟩
  exact ⟨hbad, C6_bad_kind_never_returns COEFFS_PGA 6 100 [400] [false] [50]
    [StdDevType.other "PEER"] hbad (.arr [0], [])⟩

/-- C6 counterexample: with an unsupported kind requested and a two-site
batch, the call raises the site-response `ValueError`, not the
unsupported-kind assertion, showing the mean terms are evaluated before the
standard-deviation check. -/
theorem C6_counterexample :
    get_mean_and_stddevs COEFFS_PGA 6 100 [300, 500] [false, false] [50, 50]
        [StdDevType.other "PEER"] = .error .ambiguousTruth ∧
      Err.ambiguousTruth ≠ Err.assertFailed := by
  refine ⟨?_, by decide⟩
  exact mean_err_of_site_err COEFFS_PGA 6 100 [300, 500] [false, false]
    [50, 50] [StdDevType.other "PEER"] rfl
    (site_response_term_multisite COEFFS_PGA [300, 500] (by decide))

/-- Broadcasting a one-element array against any array maps over the other
array, the numpy length-1 broadcast rule. -/
theorem bop_arr_one (f : ℝ → ℝ → ℝ) (a : ℝ) (bs : List ℝ) :
    bop f (.arr [a]) (.arr bs) = .ok (.arr (bs.map (fun b => f a b))) := by
  match bs with
  | [] => rfl
  | [b] => rfl
  | b :: b2 :: rest => rfl

/-- C7 counterexample: a call whose site arrays have length 1 and whose
distance array has length 2 succeeds by numpy length-1 broadcasting instead
of failing, so mismatched array lengths do not make the call fail. -/
theorem C7_counterexample :
    get_mean_and_stddevs COEFFS_PGA 6 100 [400] [false] [50, 100] [] =
        .ok (.arr
          [9.6231 + (-1.1316 * Real.log 50 + (-0.0024) * 50) +
            (-0.07) + (-0.0835),
           9.6231 + (-1.1316 * Real.log 100 + (-0.0024) * 100) +
            (-0.07) + (-0.0835)], []) ∧
      ([400] : List ℝ).length ≠ ([50, 100] : List ℝ).length := by
  refine ⟨?_, by decide⟩
  unfold get_mean_and_stddevs
  rw [site_pga_400]
  unfold compute_distance_arc_term
  simp only [npLog, smul, sminus, npMul, npAdd, List.map_cons, List.map_nil]
  rw [bop_arr_one]
  simp only [ebind_ok, List.map_cons, List.map_nil]
  rw [bop_arr_arr _ _ _ (by simp)]
  simp only [ebind_ok, List.zipWith_cons_cons, List.zipWith_nil_right]
  rw [bop_arr_one]
  simp only [ebind_ok, List.map_cons, List.map_nil]
  rw [bop_arr_arr _ _ _ (by simp)]
  simp only [ebind_ok, List.zipWith_cons_cons, List.zipWith_nil_right,
    bop_scalar_arr, bop_arr_scalar, List.map_cons, List.map_nil]
  have hstd : get_stddevs COEFFS_PGA [] = .ok [] := rfl
  rw [hstd]
  simp only [ebind_ok, Except.ok.injEq, Prod.mk.injEq, NPVal.arr.injEq,
    List.cons.injEq, and_true]
  norm_num [compute_magnitude_term, compute_focal_depth_term, COEFFS_PGA,
    Bool.false_eq_true]

/-- C7 (amended): the code performs no length validation and has no
dedicated mismatched-length error; when `backarc` and `rhypo` have unequal
lengths that are both at least 2, the call fails with the numpy
broadcasting `ValueError` raised inside the distance-term computation
(while a length-1 array broadcasts silently, see the counterexample). -/
theorem C7_mismatch_broadcast_error (C : Coeffs) (mag hd : ℝ)
    (vs30 : List ℝ) (backarc : List Bool) (rhypo : List ℝ)
    (types : List StdDevType) (hb : 2 ≤ backarc.length)
    (hr : 2 ≤ rhypo.length) (hne : backarc.length ≠ rhypo.length) :
    get_mean_and_stddevs C mag hd vs30 backarc rhypo types =
      .error .broadcastMismatch := by
  have hdist : compute_distance_arc_term C backarc rhypo =
      .error .broadcastMismatch := by
    rcases backarc with _ | ⟨b1, _ | ⟨b2, bs⟩⟩
    · simp at hb
    · simp at hb
    · rcases rhypo with _ | ⟨r1, _ | ⟨r2, rs⟩⟩
      · simp at hr
      · simp at hr
      · simp only [compute_distance_arc_term, npLog, smul, sminus, npMul,
          npAdd, List.map_cons, bop]
        rw [if_neg (by simpa using hne)]
        simp only [ebind_error]
  simp only [get_mean_and_stddevs]
  rw [hdist]
  simp only [ebind_error]

/-- Witness for the amended C7 at concrete lengths 2 and 3. -/
theorem C7_witness :
    2 ≤ ([false, true] : List Bool).length ∧
      2 ≤ ([50, 60, 70] : List ℝ).length ∧
      ([false, true] : List Bool).length ≠ ([50, 60, 70] : List ℝ).length ∧
      get_mean_and_stddevs COEFFS_PGA 6 100 [400] [false, true] [50, 60, 70]
        [.total] = .error .broadcastMismatch := by
  refine ⟨by decide, by decide, by decide, ?_⟩
  exact C7_mismatch_broadcast_error COEFFS_PGA 6 100 [400] [false, true]
    [50, 60, 70] [.total] (by decide) (by decide) (by decide)

/-- Helper: the stateful site-response call returns the input arrays
unchanged: `vs_star` is a fresh copy and the clips write into it only. -/
theorem site_response_term_st_snd (C : Coeffs) (inputs : Inputs) :
    (compute_site_response_term_st C inputs).2 = inputs := by
  unfold compute_site_response_term_st
  generalize ((inputs.vs30.map (fun v => if v > 800 then (800 : ℝ) else v)).map
    (fun v => if v < 180 then (180 : ℝ) else v)) = L
  rcases L with _ | ⟨w, _ | ⟨w2, rest⟩⟩ <;> rfl

/-- Helper: the stateful site-response call computes the same value as the
pure embedding of `_compute_site_response_term`. -/
theorem site_response_term_st_fst (C : Coeffs) (inputs : Inputs) :
    (compute_site_response_term_st C inputs).1 =
      compute_site_response_term C inputs.vs30 := by
  unfold compute_site_response_term_st compute_site_response_term
  generalize ((inputs.vs30.map (fun v => if v > 800 then (800 : ℝ) else v)).map
    (fun v => if v < 180 then (180 : ℝ) else v)) = L
  rcases L with _ | ⟨w, _ | ⟨w2, rest⟩⟩ <;> rfl

/-- Helper: the stateful call computes the same result as the pure
embedding of `get_mean_and_stddevs`. -/
theorem get_mean_and_stddevs_st_fst (C : Coeffs) (mag hd : ℝ)
    (inputs : Inputs) (types : List StdDevType) :
    (get_mean_and_stddevs_st C mag hd inputs types).1 =
      get_mean_and_stddevs C mag hd inputs.vs30 inputs.backarc inputs.rhypo
        types := by
  unfold get_mean_and_stddevs_st get_mean_and_stddevs
  rw [site_response_term_st_fst]

/-- C10: the call leaves the input arrays of the caller unchanged: the
site-response term clips a copy of `sites.vs30`, so the stored per-site
arrays after the call equal the arrays before it, for every input. -/
theorem C10_inputs_unchanged (C : Coeffs) (mag hd : ℝ) (inputs : Inputs)
    (types : List StdDevType) :
    (get_mean_and_stddevs_st C mag hd inputs types).2 = inputs := by
  unfold get_mean_and_stddevs_st
  exact site_response_term_st_snd C inputs

end Vacareanu2015
